import Mathlib

/-!
# AI-Provenance-Tool: verification of the detection / matching / confirmation core

Shallow embedding of the detection-job pipeline, the vector-similarity
abstraction with heuristic fallback, and the match-confirmation logic of the
`AI-Provenance-Tool` backend (`src/backend/app`).  Relational rows are
embedded as Lean structures, the database as lists of rows inside a `Store`,
and each endpoint / background task as a pure function on the store.  Python
floats are modelled as rationals (`ℚ`) except where a square root is needed
(`ℝ`); `random` and `numpy.random` are modelled by a deterministic linear
congruential generator threaded explicitly.
-/

deriving instance DecidableEq for Except

namespace AIProv

/-- Python truthiness of an optional integer column value
(`None` and `0` are falsy). -/
def intTruthy : Option Int → Bool
  | none => false
  | some y => !(y == 0)

/-- Python truthiness of an optional string column value
(`None` and `""` are falsy). -/
def strTruthy : Option String → Bool
  | none => false
  | some s => !(s == "")

/-- Python truthiness of an optional float-array column value
(`None` and the empty array are falsy). -/
def embTruthy : Option (List ℚ) → Bool
  | none => false
  | some l => !l.isEmpty

/-- Row of the `artworks` table (`app/models/artwork.py`). -/
structure Artwork where
  id : Nat
  title : String
  year : Option Int
  format_type : Option String
  image_url : Option String
  vector_embedding : Option (List ℚ)
deriving Repr, DecidableEq, Inhabited

/-- Processing status enum shared by jobs and installation photos
(`app/schemas/processing.py`, `app/models/installation_photo.py`). -/
inductive ProcessingStatus
  | pending
  | processing
  | completed
  | failed
deriving Repr, DecidableEq, Inhabited

/-- Row of the `installation_photos` table (`app/models/installation_photo.py`). -/
structure InstallationPhoto where
  id : Nat
  exhibition_id : Nat
  photo_url : String
  processed_status : ProcessingStatus
deriving Repr, DecidableEq, Inhabited

/-- JSON bounding box stored on a detection
(`app/models/detection.py`: `{"x": int, "y": int, "width": int, "height": int}`). -/
structure BoundingBox where
  x : Nat
  y : Nat
  width : Nat
  height : Nat
deriving Repr, DecidableEq, Inhabited

/-- Row of the `detections` table (`app/models/detection.py`). -/
structure Detection where
  id : Nat
  installation_photo_id : Nat
  artwork_id : Nat
  confidence_score : ℚ
  bounding_box : Option BoundingBox
deriving Repr, DecidableEq, Inhabited

/-- Row of the `provenance_records` table (`app/models/provenance_record.py`). -/
structure ProvenanceRecord where
  id : Nat
  artwork_id : Nat
  exhibition_id : Nat
  detection_id : Nat
  created_at : Nat
deriving Repr, DecidableEq, Inhabited

/-- The relational store: one list per table, in table order, plus the
primary-key counters the database would supply and a clock for
`func.now()` / `datetime.now()` timestamps. -/
structure Store where
  artworks : List Artwork
  photos : List InstallationPhoto
  detections : List Detection
  provenance_records : List ProvenanceRecord
  next_provenance_id : Nat
  next_detection_id : Nat
  now : Nat
deriving Repr, DecidableEq, Inhabited

/-- Errors surfaced by the HTTP layer (`HTTPException` and friends). -/
inductive ApiError
  | notFound (detail : String)
  | internalError (detail : String)
deriving Repr, DecidableEq

/-- `db.query(Detection).join(Artwork).filter(Detection.id == detection_id).first()`:
the first detection with the requested id whose artwork row exists. -/
def Store.findDetectionJoinArtwork (st : Store) (detection_id : Nat) : Option Detection :=
  st.detections.find? fun d =>
    d.id == detection_id && st.artworks.any fun a => a.id == d.artwork_id

/-- `db.query(Artwork).filter(Artwork.id == artwork_id).first()`. -/
def Store.findArtwork (st : Store) (artwork_id : Nat) : Option Artwork :=
  st.artworks.find? fun a => a.id == artwork_id

/-- `db.query(InstallationPhoto).filter(InstallationPhoto.id == pid).first()`. -/
def Store.findPhoto (st : Store) (pid : Nat) : Option InstallationPhoto :=
  st.photos.find? fun p => p.id == pid

/-- Mutating `existing_record.artwork_id = confirmed` on the row returned by
`.first()`: replace the artwork id of the first provenance record carrying
the given detection id, leaving every other row and field untouched. -/
def setArtworkOnFirst : List ProvenanceRecord → Nat → Nat → List ProvenanceRecord
  | [], _, _ => []
  | r :: rs, d, a =>
    if r.detection_id == d then { r with artwork_id := a } :: rs
    else r :: setArtworkOnFirst rs d a

/-- Mutating `detection.artwork_id = confirmed` on the row returned by
`.first()`: replace the artwork id of the first detection with the given id. -/
def reassignDetection : List Detection → Nat → Nat → List Detection
  | [], _, _ => []
  | d :: ds, did, a =>
    if d.id == did then { d with artwork_id := a } :: ds
    else d :: reassignDetection ds did a

/-- Response of the confirm-match endpoint (`app/schemas/results.py`). -/
structure ConfirmMatchResponse where
  detection_id : Nat
  original_artwork_id : Nat
  confirmed_artwork_id : Nat
  provenance_record_id : Nat
  message : String
deriving Repr, DecidableEq

/-- `confirm_match` (`app/api/results.py`, lines 116-175): look up the
detection (joined with its artwork) and the confirmed artwork, derive the
exhibition from the detection's installation photo, upsert the provenance
record for the detection, reassign the detection's artwork id when it
differs, and commit.  Returns the (possibly unchanged) store together with
the response or the raised `HTTPException`. -/
def confirm_match (st : Store) (detection_id confirmed_artwork_id : Nat) :
    Store × Except ApiError ConfirmMatchResponse :=
  match st.findDetectionJoinArtwork detection_id with
  | none => (st, .error (.notFound "Detection not found"))
  | some detection =>
    match st.findArtwork confirmed_artwork_id with
    | none => (st, .error (.notFound "Confirmed artwork not found"))
    | some _confirmed_artwork =>
      match st.findPhoto detection.installation_photo_id with
      | none => (st, .error (.internalError "installation photo missing"))
      | some installation_photo =>
        let detections :=
          if detection.artwork_id != confirmed_artwork_id then
            reassignDetection st.detections detection_id confirmed_artwork_id
          else st.detections
        match st.provenance_records.find? fun r => r.detection_id == detection_id with
        | some existing_record =>
          ({ st with
              provenance_records :=
                setArtworkOnFirst st.provenance_records detection_id confirmed_artwork_id
              detections := detections },
           .ok { detection_id := detection_id
                 original_artwork_id := detection.artwork_id
                 confirmed_artwork_id := confirmed_artwork_id
                 provenance_record_id := existing_record.id
                 message := "Match confirmed and provenance record created" })
        | none =>
          ({ st with
              provenance_records := st.provenance_records ++
                [{ id := st.next_provenance_id
                   artwork_id := confirmed_artwork_id
                   exhibition_id := installation_photo.exhibition_id
                   detection_id := detection_id
                   created_at := st.now }]
              next_provenance_id := st.next_provenance_id + 1
              detections := detections },
           .ok { detection_id := detection_id
                 original_artwork_id := detection.artwork_id
                 confirmed_artwork_id := confirmed_artwork_id
                 provenance_record_id := st.next_provenance_id
                 message := "Match confirmed and provenance record created" })

/-- Number of provenance records attached to a given detection. -/
def provCountFor (st : Store) (d : Nat) : Nat :=
  st.provenance_records.countP fun r => r.detection_id == d

/-- Folding a sequence of confirm-match calls over the store, keeping the
store of each step (responses and errors are discarded). -/
def confirmSeq (st : Store) (calls : List (Nat × Nat)) : Store :=
  calls.foldl (fun s c => (confirm_match s c.1 c.2).1) st

/-- Concrete catalog entry used to exercise the theorems. -/
def exArtwork1 : Artwork :=
  { id := 1, title := "Starry Night", year := some 1889,
    format_type := some "painting", image_url := none, vector_embedding := none }

/-- Second concrete catalog entry. -/
def exArtwork2 : Artwork :=
  { id := 2, title := "Irises", year := some 1895,
    format_type := some "painting", image_url := none, vector_embedding := none }

/-- Concrete installation photo. -/
def exPhoto : InstallationPhoto :=
  { id := 1, exhibition_id := 7, photo_url := "https://x/p.jpg",
    processed_status := .pending }

/-- Concrete detection pointing at `exArtwork1`. -/
def exDetection : Detection :=
  { id := 1, installation_photo_id := 1, artwork_id := 1,
    confidence_score := 9/10, bounding_box := none }

/-- Concrete store with two artworks, one photo, one detection and no
provenance records. -/
def exStore : Store :=
  { artworks := [exArtwork1, exArtwork2], photos := [exPhoto],
    detections := [exDetection], provenance_records := [],
    next_provenance_id := 1, next_detection_id := 1, now := 100 }

/-- Pre-existing provenance record for `exDetection`. -/
def exRecord : ProvenanceRecord :=
  { id := 5, artwork_id := 1, exhibition_id := 7, detection_id := 1, created_at := 42 }

/-- `exStore` with a pre-existing provenance record for the detection. -/
def exStore2 : Store := { exStore with provenance_records := [exRecord] }

/-- `exStore` after confirming artwork 2 for detection 1. -/
def exStoreAfterConfirm : Store :=
  { exStore with
      detections := [{ exDetection with artwork_id := 2 }]
      provenance_records :=
        [{ id := 1, artwork_id := 2, exhibition_id := 7, detection_id := 1,
           created_at := 100 }]
      next_provenance_id := 2 }

/-- Response of that confirmation. -/
def exConfirmResp : ConfirmMatchResponse :=
  { detection_id := 1, original_artwork_id := 1, confirmed_artwork_id := 2,
    provenance_record_id := 1,
    message := "Match confirmed and provenance record created" }

/-- `exStore2` after confirming artwork 2 for detection 1 (update path). -/
def exStore2After : Store :=
  { exStore2 with
      detections := [{ exDetection with artwork_id := 2 }]
      provenance_records := [{ exRecord with artwork_id := 2 }] }

/-- Response of that confirmation (update path). -/
def exConfirmResp2 : ConfirmMatchResponse :=
  { detection_id := 1, original_artwork_id := 1, confirmed_artwork_id := 2,
    provenance_record_id := 5,
    message := "Match confirmed and provenance record created" }

/-- Metadata dictionary attached to a vector in the index. -/
abbrev Metadata := List (String × String)

/-- A connected similarity index: one outcome function per remote call,
each either returning a response or raising (`Except.error`).  Models the
Pinecone index object held by `VectorService` when initialization
succeeded. -/
structure IndexConn where
  upsertOutcome : Nat → List ℚ → Metadata → Except String Unit
  queryOutcome : List ℚ → Nat → Except String (List (String × ℚ × Metadata))
  fetchOutcome : Nat → Except String (Option (List ℚ))
  deleteOutcome : Nat → Except String Unit

/-- `VectorService` (`app/services/vector_service.py`): `index` is `None`
exactly when Pinecone initialization failed (missing client, missing API
key, or any connection error); the instance then stays unavailable for its
lifetime. -/
structure VectorService where
  index : Option IndexConn
  dimension : Nat

/-- `is_available` (lines 95-97): the index handle is present. -/
def VectorService.is_available (svc : VectorService) : Bool :=
  svc.index.isSome

/-- `upsert_artwork_embedding` (lines 99-135): `False` when unavailable,
otherwise `True` on a successful upsert and `False` when the call raises. -/
def VectorService.upsert_artwork_embedding (svc : VectorService)
    (artwork_id : Nat) (embedding : List ℚ) (metadata : Metadata) : Bool :=
  if svc.is_available then
    match svc.index with
    | some conn =>
      match conn.upsertOutcome artwork_id embedding metadata with
      | .ok _ => true
      | .error _ => false
    | none => false
  else false

/-- `search_similar_artworks` (lines 137-188): empty when unavailable or on
a raised query; otherwise the index's matches filtered to scores at or
above the threshold, in the index's order. -/
def VectorService.search_similar_artworks (svc : VectorService)
    (query_embedding : List ℚ) (top_k : Nat) (score_threshold : ℚ) :
    List (String × ℚ × Metadata) :=
  if svc.is_available then
    match svc.index with
    | some conn =>
      match conn.queryOutcome query_embedding top_k with
      | .ok resp => resp.filter fun m => decide (score_threshold ≤ m.2.1)
      | .error _ => []
    | none => []
  else []

/-- `get_artwork_embedding` (lines 190-216): `None` when unavailable, when
the id is absent from the index, or when the fetch raises. -/
def VectorService.get_artwork_embedding (svc : VectorService)
    (artwork_id : Nat) : Option (List ℚ) :=
  if svc.is_available then
    match svc.index with
    | some conn =>
      match conn.fetchOutcome artwork_id with
      | .ok (some v) => some v
      | .ok none => none
      | .error _ => none
    | none => none
  else none

/-- `delete_artwork_embedding` (lines 218-238): `False` when unavailable or
when the delete raises, `True` otherwise. -/
def VectorService.delete_artwork_embedding (svc : VectorService)
    (artwork_id : Nat) : Bool :=
  if svc.is_available then
    match svc.index with
    | some conn =>
      match conn.deleteOutcome artwork_id with
      | .ok _ => true
      | .error _ => false
    | none => false
  else false

/-- A vector service whose initialization failed. -/
def exOfflineService : VectorService := { index := none, dimension := 512 }

/-- One ranked similar-artwork entry (`app/schemas/results.py`). -/
structure SimilarArtwork where
  artwork_id : Nat
  title : String
  year : Option Int
  format_type : Option String
  similarity_score : ℚ
  image_url : Option String
deriving Repr, DecidableEq

/-- Response of the matches endpoint (`app/schemas/results.py`). -/
structure MatchesResponse where
  detection_id : Nat
  detected_artwork_id : Nat
  detected_artwork_title : String
  confidence_score : ℚ
  similar_artworks : List SimilarArtwork
  match_count : Nat
deriving Repr, DecidableEq

/-- Building one `SimilarArtwork` entry from a catalog row and a score. -/
def mkSimilarArtwork (a : Artwork) (score : ℚ) : SimilarArtwork :=
  { artwork_id := a.id, title := a.title, year := a.year,
    format_type := a.format_type, similarity_score := score,
    image_url := a.image_url }

/-- Heuristic metadata similarity score (`app/api/results.py`, lines
85-103): base 0.6, +0.2 when `format_type` compares equal under Python
`==` (two missing formats also match), a year-proximity bonus when both
years are truthy (+0.15 for a gap of at most 5 years, +0.1 for at most
10), capped at 0.95 when appended. -/
def heuristicScore (artwork detArt : Artwork) : ℚ :=
  let base : ℚ := 6/10
  let withFmt := if artwork.format_type == detArt.format_type then base + 2/10 else base
  let withYear :=
    if intTruthy artwork.year && intTruthy detArt.year then
      let year_diff := ((artwork.year.getD 0) - (detArt.year.getD 0)).natAbs
      if year_diff ≤ 5 then withFmt + 15/100
      else if year_diff ≤ 10 then withFmt + 1/10
      else withFmt
    else withFmt
  min withYear (95/100)

/-- Candidate query of the heuristic fallback (lines 61-84): artworks other
than the detected one, filtered to the same `format_type` when the detected
artwork has a truthy one, filtered to a ±20 year window when it has a
truthy year (`BETWEEN` excludes rows without a year), first five in table
order (`limit(5)`). -/
def heuristicCandidates (st : Store) (detArt : Artwork)
    (detected_artwork_id : Nat) : List Artwork :=
  let q0 := st.artworks.filter fun a => !(a.id == detected_artwork_id)
  let q1 :=
    if strTruthy detArt.format_type then
      q0.filter fun a => a.format_type == detArt.format_type
    else q0
  let q2 :=
    if intTruthy detArt.year then
      q1.filter fun a =>
        match a.year with
        | some y =>
          decide (detArt.year.getD 0 - 20 ≤ y) && decide (y ≤ detArt.year.getD 0 + 20)
        | none => false
    else q1
  q2.take 5

/-- The loop over vector-query hits (lines 37-54): parse the hit id, skip
the detected artwork itself, skip ids that no longer resolve in the
catalog; a parse failure raises inside the surrounding `try`, which keeps
the entries accumulated so far and falls through to the `except`. -/
def collectVectorMatches (st : Store) (own_id : Nat) :
    List (String × ℚ × Metadata) → List SimilarArtwork → List SimilarArtwork
  | [], acc => acc
  | (idStr, score, _) :: rest, acc =>
    match idStr.toNat? with
    | none => acc
    | some aid =>
      if aid == own_id then collectVectorMatches st own_id rest acc
      else
        match st.findArtwork aid with
        | none => collectVectorMatches st own_id rest acc
        | some aw => collectVectorMatches st own_id rest (acc ++ [mkSimilarArtwork aw score])

/-- `get_similarity_matches` (`app/api/results.py`, lines 13-114): load the
detection joined with its artwork, try the vector path when the service is
available and the artwork has a stored embedding (`top_k=10`,
`score_threshold=0.5`), and fall back to the metadata heuristic whenever
the vector path produced nothing. -/
def get_similarity_matches (svc : VectorService) (st : Store)
    (detection_id : Nat) : Except ApiError MatchesResponse :=
  match st.findDetectionJoinArtwork detection_id with
  | none => .error (.notFound "Detection not found")
  | some detection =>
    match st.findArtwork detection.artwork_id with
    | none => .error (.internalError "joined artwork missing")
    | some detArt =>
      let vectorMatches :=
        if svc.is_available && embTruthy detArt.vector_embedding then
          collectVectorMatches st detection.artwork_id
            (svc.search_similar_artworks (detArt.vector_embedding.getD []) 10 (1/2)) []
        else []
      let similar_artworks :=
        if vectorMatches.isEmpty then
          (heuristicCandidates st detArt detection.artwork_id).map
            fun a => mkSimilarArtwork a (heuristicScore a detArt)
        else vectorMatches
      .ok { detection_id := detection_id
            detected_artwork_id := detection.artwork_id
            detected_artwork_title := detArt.title
            confidence_score := detection.confidence_score
            similar_artworks := similar_artworks
            match_count := similar_artworks.length }

/-- Linear congruential generator: the seedable deterministic model of
`random` / `numpy.random` used by the mock pipeline (small constants keep
every term kernel-reducible). -/
def lcg (s : Nat) : Nat :=
  (75 * s + 74) % 65537

/-- `random.randint(lo, hi)`: uniform integer in `[lo, hi]` (inclusive),
together with the advanced generator state. -/
def randint (s lo hi : Nat) : Nat × Nat :=
  let s' := lcg s
  (lo + s' % (hi + 1 - lo), s')

/-- `random.uniform(lo, hi)`: a rational in `[lo, hi]`, together with the
advanced generator state. -/
def randUniform (s : Nat) (lo hi : ℚ) : ℚ × Nat :=
  let s' := lcg s
  (lo + (((s' % 1000000 : Nat) : ℚ) / 1000000) * (hi - lo), s')

/-- `random.sample(xs, k)`: `k` elements drawn without replacement --- pick
a position (always in range for a nonempty list), remove it, recurse. -/
def sample : List Artwork → Nat → Nat → List Artwork × Nat
  | _, 0, s => ([], s)
  | xs, k + 1, s =>
    let r := randint s 0 (xs.length - 1)
    if h : r.1 < xs.length then
      let x := xs.get ⟨r.1, h⟩
      let rest := sample (xs.eraseIdx r.1) k r.2
      (x :: rest.1, rest.2)
    else ([], r.2)

/-- One snapshot of a `job_status[job_id]` entry
(`app/api/processing.py`, lines 154-163). -/
structure JobState where
  installation_photo_id : Nat
  status : ProcessingStatus
  progress_percentage : Nat
  message : String
  error_details : Option String
  started_at : Nat
  completed_at : Option Nat
deriving Repr, DecidableEq, Inhabited

/-- Where an exception is injected inside the pipeline's `try` block: at
the artwork query (after the 50% checkpoint) or at the photo lookup /
final commit (after the 80% checkpoint).  Together with the intrinsic
empty-catalog failure this covers "any exception during steps 1-5". -/
inductive FaultPoint
  | duringQuery
  | duringCommit
deriving Repr, DecidableEq

/-- Environment of one background run: the injected fault (if any), whether
the best-effort photo update inside the error handler itself fails, the
RNG seed, and the wall clock for `datetime.now()`. -/
structure PipelineEnv where
  fault : Option (FaultPoint × String)
  photoUpdateFails : Bool
  rngSeed : Nat
  clock : Nat
deriving Repr, DecidableEq

/-- `if installation_photo: installation_photo.processed_status = status`:
update the first photo with the given id; a no-op when the id is absent. -/
def setPhotoStatus : List InstallationPhoto → Nat → ProcessingStatus →
    List InstallationPhoto
  | [], _, _ => []
  | p :: ps, pid, stat =>
    if p.id == pid then { p with processed_status := stat } :: ps
    else p :: setPhotoStatus ps pid stat

/-- The detection-record loop (lines 70-90): one detection per sampled
artwork, with a synthesized bounding box (`x∈[50,400]`, `y∈[50,300]`,
`width∈[100,300]`, `height∈[100,400]`) and a confidence score drawn from
`[0.75, 0.98]`. -/
def buildDetections : List Artwork → Nat → Nat → Nat → List Detection × Nat
  | [], _, _, s => ([], s)
  | a :: rest, photo_id, next_id, s =>
    let r1 := randint s 50 400
    let r2 := randint r1.2 50 300
    let r3 := randint r2.2 100 300
    let r4 := randint r3.2 100 400
    let r5 := randUniform r4.2 (3/4) (49/50)
    let det : Detection :=
      { id := next_id, installation_photo_id := photo_id, artwork_id := a.id,
        confidence_score := r5.1,
        bounding_box := some { x := r1.1, y := r2.1, width := r3.1, height := r4.1 } }
    let built := buildDetections rest photo_id (next_id + 1) r5.2
    (det :: built.1, built.2)

/-- The job entry created synchronously by the submit handler
(`process_installation_photo`, lines 154-163). -/
def initialJobState (photo_id clock : Nat) : JobState :=
  { installation_photo_id := photo_id, status := .pending,
    progress_percentage := 0, message := "Photo queued for processing",
    error_details := none, started_at := clock, completed_at := none }

/-- The detections a fault-free run creates: sample 1..min(3,n) of the
first ten artworks, then synthesize one detection row per sampled
artwork. -/
def successDetections (st : Store) (photo_id seed : Nat) : List Detection :=
  let num := randint seed 1 (min 3 (st.artworks.take 10).length)
  let smp := sample (st.artworks.take 10) num.1 num.2
  (buildDetections smp.1 photo_id st.next_detection_id smp.2).1

/-- The store a fault-free run commits: the new detection rows appended and
the photo marked COMPLETED, in one unit of work. -/
def successStore (st : Store) (photo_id seed : Nat) : Store :=
  { st with
    detections := st.detections ++ successDetections st photo_id seed
    next_detection_id :=
      st.next_detection_id + (successDetections st photo_id seed).length
    photos := setPhotoStatus st.photos photo_id .completed }

/-- `mock_process_installation_photo` (lines 24-127): write PROCESSING/10,
then inside `try` write 50, load up to ten artworks, fail on an empty
catalog, sample 1..min(3,n) artworks, write 80, build the detection rows,
mark the photo COMPLETED and commit, write COMPLETED/100; on any raised
exception write FAILED with the exception message and best-effort-mark the
photo FAILED (that update's own failure is swallowed by the bare
`except: pass`).  Returns the sequence of job snapshots in write order,
the resulting store, and the final job state; the function is total, so no
exception ever escapes the background task. -/
def mock_process (env : PipelineEnv) (st : Store) (photo_id : Nat)
    (j0 : JobState) : List JobState × Store × JobState :=
  let j1 := { j0 with
    status := .processing
    progress_percentage := 10
    message := "Downloading and analyzing image..." }
  let j2 := { j1 with
    progress_percentage := 50
    message := "Detecting artworks in image..." }
  let tryResult : List JobState × Except (String × JobState) (Store × JobState) :=
    match env.fault with
    | some (.duringQuery, m) => ([j2], .error (m, j2))
    | _ =>
      let artworks := st.artworks.take 10
      if artworks.isEmpty then
        ([j2], .error ("No artworks in catalog to match against", j2))
      else
        let r1 := randint env.rngSeed 1 (min 3 artworks.length)
        let j3 := { j2 with
          progress_percentage := 80
          message := "Creating detection records..." }
        match env.fault with
        | some (.duringCommit, m) => ([j2, j3], .error (m, j3))
        | _ =>
          let st' := successStore st photo_id env.rngSeed
          let j4 := { j3 with
            status := .completed
            progress_percentage := 100
            message := "Successfully detected " ++ toString r1.1 ++ " artworks"
            completed_at := some env.clock }
          ([j2, j3, j4], .ok (st', j4))
  match tryResult with
  | (tr, .ok (st', j4)) => (j1 :: tr, st', j4)
  | (tr, .error (m, jcur)) =>
    let jf := { jcur with
      status := .failed
      error_details := some m
      message := "Processing failed"
      completed_at := some env.clock }
    let stf :=
      if env.photoUpdateFails then st
      else { st with photos := setPhotoStatus st.photos photo_id .failed }
    (j1 :: (tr ++ [jf]), stf, jf)

/-- One full observable run of a job: the submit handler's PENDING entry
followed by every background-task write, plus the resulting store and the
final job state. -/
def jobRun (env : PipelineEnv) (st : Store) (photo_id : Nat) :
    List JobState × Store × JobState :=
  let j0 := initialJobState photo_id env.clock
  let run := mock_process env st photo_id j0
  (j0 :: run.1, run.2)

/-- A fault-free run environment. -/
def exEnv : PipelineEnv :=
  { fault := none, photoUpdateFails := false, rngSeed := 0, clock := 100 }

/-- `exStore` with an empty catalog (scenario 1 of the spec). -/
def exStoreEmpty : Store := { exStore with artworks := [] }

/-- Iterated LCG: the model of numpy's seeded generator stream
(`np.random.seed(artwork_id)` fixes the whole stream). -/
def lcgStream (seed : Nat) : Nat → Nat
  | 0 => lcg seed
  | k + 1 => lcg (lcgStream seed k)

/-- One modelled standard-normal draw: a rational in [-1, 1] derived
deterministically from the seed and the position in the stream. -/
def normalDraw (seed k : Nat) : ℚ :=
  (((lcgStream seed k % 2001 : Nat) : ℚ) - 1000) / 1000

/-- The raw vector `np.random.normal(0, 1, dimension)` drawn from the
generator seeded with the artwork id. -/
def rawEmbedding (artwork_id dimension : Nat) : List ℚ :=
  (List.range dimension).map (normalDraw artwork_id)

/-- Squared L2 norm of a rational vector
(`np.linalg.norm(v)` is its square root). -/
def normSq : List ℚ → ℚ
  | [] => 0
  | x :: xs => x * x + normSq xs

/-- Squared L2 norm of a real vector. -/
def normSqR : List ℝ → ℝ
  | [] => 0
  | x :: xs => x * x + normSqR xs

/-- `generate_mock_embedding` (`app/utils/embedding_utils.py`, lines 7-30):
seed the generator with the artwork id, draw a `dimension`-length
standard-normal vector, and L2-normalize it unless its norm is zero (the
zero-norm vector is returned unnormalized rather than divided by zero).
The normalization is carried out over `ℝ` because `np.linalg.norm` takes a
square root. -/
noncomputable def generate_mock_embedding (artwork_id dimension : Nat) :
    List ℝ :=
  let embedding := rawEmbedding artwork_id dimension
  let norm : ℝ := Real.sqrt ((normSq embedding : ℚ) : ℝ)
  if 0 < norm then embedding.map fun q : ℚ => (q : ℝ) / norm
  else embedding.map fun q : ℚ => ((q : ℝ))

lemma setArtworkOnFirst_countP (l : List ProvenanceRecord) (d a e : Nat) :
    (setArtworkOnFirst l d a).countP (fun r => r.detection_id == e)
      = l.countP (fun r => r.detection_id == e) := by
  induction l with
  | nil => rfl
  | cons r rs ih =>
    cases h : (r.detection_id == d) with
    | true => simp [setArtworkOnFirst, h, List.countP_cons]
    | false => simp [setArtworkOnFirst, h, List.countP_cons, ih]

lemma setArtworkOnFirst_decomp (l : List ProvenanceRecord) (d a : Nat)
    (r : ProvenanceRecord)
    (h : l.find? (fun x => x.detection_id == d) = some r) :
    ∃ l₁ l₂, l = l₁ ++ r :: l₂ ∧ (∀ x ∈ l₁, x.detection_id ≠ d) ∧
      setArtworkOnFirst l d a = l₁ ++ { r with artwork_id := a } :: l₂ := by
  induction l with
  | nil => simp at h
  | cons x xs ih =>
    cases hx : (x.detection_id == d) with
    | true =>
      rw [List.find?_cons, hx] at h
      obtain rfl : x = r := by injection h
      exact ⟨[], xs, by simp, by simp, by simp [setArtworkOnFirst, hx]⟩
    | false =>
      rw [List.find?_cons, hx] at h
      obtain ⟨l₁, l₂, hl, hall, hset⟩ := ih h
      refine ⟨x :: l₁, l₂, by simp [hl], ?_, by simp [setArtworkOnFirst, hx, hset]⟩
      intro y hy
      rcases List.mem_cons.mp hy with rfl | hy'
      · simpa using hx
      · exact hall y hy'

lemma setArtworkOnFirst_all (l : List ProvenanceRecord) (d a : Nat)
    (hle : l.countP (fun r => r.detection_id == d) ≤ 1) :
    ∀ r ∈ setArtworkOnFirst l d a, r.detection_id = d → r.artwork_id = a := by
  induction l with
  | nil => simp [setArtworkOnFirst]
  | cons x xs ih =>
    cases hx : (x.detection_id == d) with
    | true =>
      have h0 : xs.countP (fun r => r.detection_id == d) = 0 := by
        have h' := hle
        simp only [List.countP_cons, hx, if_true] at h'
        omega
      intro r hr hrd
      simp only [setArtworkOnFirst, hx, if_true] at hr
      rcases List.mem_cons.mp hr with rfl | hr'
      · rfl
      · exact absurd (by simpa using hrd)
          (by simpa using List.countP_eq_zero.mp h0 r hr')
    | false =>
      intro r hr hrd
      simp only [setArtworkOnFirst, hx, if_false, Bool.false_eq_true] at hr
      rcases List.mem_cons.mp hr with rfl | hr'
      · exact absurd (by simpa using hrd) (by simpa using hx)
      · refine ih ?_ r hr' hrd
        have h' := hle
        simp only [List.countP_cons, hx] at h'
        omega

/-- One confirm-match call preserves "at most one provenance record per
detection", for every detection id. -/
lemma provCountFor_confirm_le (st : Store) (did a d : Nat)
    (h : provCountFor st d ≤ 1) :
    provCountFor (confirm_match st did a).1 d ≤ 1 := by
  cases h1 : st.findDetectionJoinArtwork did with
  | none => simpa [confirm_match, h1, provCountFor] using h
  | some det =>
    cases h2 : st.findArtwork a with
    | none => simpa [confirm_match, h1, h2, provCountFor] using h
    | some aw =>
      cases h3 : st.findPhoto det.installation_photo_id with
      | none => simpa [confirm_match, h1, h2, h3, provCountFor] using h
      | some ph =>
        cases h4 : st.provenance_records.find? (fun r => r.detection_id == did) with
        | some r =>
          simpa [confirm_match, h1, h2, h3, h4, provCountFor,
            setArtworkOnFirst_countP] using h
        | none =>
          have h0 : ∀ x ∈ st.provenance_records, ¬(x.detection_id == did) = true :=
            List.find?_eq_none.mp h4
          simp only [confirm_match, h1, h2, h3, h4, provCountFor,
            List.countP_append, List.countP_cons, List.countP_nil]
          cases h5 : ((did : Nat) == d) with
          | true =>
            have hdd : did = d := by simpa using h5
            have : st.provenance_records.countP (fun r => r.detection_id == d) = 0 :=
              List.countP_eq_zero.mpr (by
                intro x hx
                subst hdd
                exact h0 x hx)
            simp [this, h5]
          | false => simpa [h5] using h

/-- A successful confirm-match call leaves exactly one provenance record for
the confirmed detection (given the invariant held before). -/
lemma provCountFor_confirm_ok (st st' : Store) (did a : Nat)
    (resp : ConfirmMatchResponse)
    (hrun : confirm_match st did a = (st', Except.ok resp))
    (h : provCountFor st did ≤ 1) :
    provCountFor st' did = 1 := by
  cases h1 : st.findDetectionJoinArtwork did with
  | none => simp [confirm_match, h1] at hrun
  | some det =>
    cases h2 : st.findArtwork a with
    | none => simp [confirm_match, h1, h2] at hrun
    | some aw =>
      cases h3 : st.findPhoto det.installation_photo_id with
      | none => simp [confirm_match, h1, h2, h3] at hrun
      | some ph =>
        cases h4 : st.provenance_records.find? (fun r => r.detection_id == did) with
        | some r =>
          have hmem := List.mem_of_find?_eq_some h4
          have hp := List.find?_some h4
          have hpos : 0 < st.provenance_records.countP (fun x => x.detection_id == did) :=
            List.countP_pos_iff.mpr ⟨r, hmem, hp⟩
          simp only [confirm_match, h1, h2, h3, h4, Prod.mk.injEq] at hrun
          obtain ⟨rfl, -⟩ := hrun
          simp only [provCountFor, setArtworkOnFirst_countP]
          have := h
          simp only [provCountFor] at this
          omega
        | none =>
          have h0 : st.provenance_records.countP (fun r => r.detection_id == did) = 0 :=
            List.countP_eq_zero.mpr (List.find?_eq_none.mp h4)
          simp only [confirm_match, h1, h2, h3, h4, Prod.mk.injEq] at hrun
          obtain ⟨rfl, -⟩ := hrun
          simp [provCountFor, List.countP_append, h0]

/-- Reassigning the first detection with a given id keeps it discoverable by
the join query, provided detection ids are unique and the new artwork id
resolves in the catalog. -/
lemma joinFind_reassign (dets : List Detection) (arts : List Artwork)
    (did a : Nat) (det : Detection)
    (hnd : (dets.map (fun d => d.id)).Nodup)
    (hfind : dets.find?
        (fun d => d.id == did && arts.any fun w => w.id == d.artwork_id) = some det)
    (ha : arts.any (fun w => w.id == a) = true) :
    (reassignDetection dets did a).find?
        (fun d => d.id == did && arts.any fun w => w.id == d.artwork_id)
      = some { det with artwork_id := a } := by
  induction dets with
  | nil => simp at hfind
  | cons x xs ih =>
    rw [List.map_cons, List.nodup_cons] at hnd
    obtain ⟨hx_not, hnd'⟩ := hnd
    cases hxid : (x.id == did) with
    | true =>
      have hxid' : x.id = did := by simpa using hxid
      cases hxart : (arts.any fun w => w.id == x.artwork_id) with
      | true =>
        rw [List.find?_cons, hxid, hxart] at hfind
        obtain rfl : x = det := by injection hfind
        simp only [reassignDetection, hxid, if_true]
        rw [List.find?_cons]
        simp [hxid, ha]
      | false =>
        rw [List.find?_cons, hxid, hxart] at hfind
        simp only [Bool.true_and] at hfind
        exfalso
        have hdet_mem := List.mem_of_find?_eq_some hfind
        have hdet_p := List.find?_some hfind
        have hdet_id : det.id = did := by
          cases hq : (det.id == did) with
          | true => simpa using hq
          | false => rw [hq] at hdet_p; simp at hdet_p
        exact hx_not (by
          rw [hxid', ← hdet_id]
          exact List.mem_map.mpr ⟨det, hdet_mem, rfl⟩)
    | false =>
      rw [List.find?_cons, hxid] at hfind
      simp only [Bool.false_and] at hfind
      simp only [reassignDetection, hxid, if_false, Bool.false_eq_true]
      rw [List.find?_cons]
      simp only [hxid, Bool.false_and]
      exact ih hnd' hfind

/-- C1 --- Confirmation is an upsert: starting from a store satisfying
"at most one provenance record for detection `d`", any sequence of
confirm-match calls preserves that bound, and two successful confirmations
of `d` (first with artwork `A`, then with artwork `B`) leave exactly one
provenance record for `d`, whose `artwork_id` is `B`. -/
theorem confirm_match_provenance_upsert (st : Store) (d : Nat)
    (hinv : provCountFor st d ≤ 1) :
    (∀ calls : List (Nat × Nat), provCountFor (confirmSeq st calls) d ≤ 1) ∧
    (∀ A B st₁ r₁ st₂ r₂,
        confirm_match st d A = (st₁, Except.ok r₁) →
        confirm_match st₁ d B = (st₂, Except.ok r₂) →
        provCountFor st₂ d = 1 ∧
        ∀ r ∈ st₂.provenance_records, r.detection_id = d → r.artwork_id = B) := by
  constructor
  · intro calls
    induction calls generalizing st with
    | nil => exact hinv
    | cons c cs ih =>
      exact ih (confirm_match st c.1 c.2).1 (provCountFor_confirm_le st c.1 c.2 d hinv)
  · intro A B st₁ r₁ st₂ r₂ h1 h2
    have hc1 : provCountFor st₁ d = 1 := provCountFor_confirm_ok st st₁ d A r₁ h1 hinv
    -- second call must hit the update branch
    cases g1 : st₁.findDetectionJoinArtwork d with
    | none => simp [confirm_match, g1] at h2
    | some det =>
      cases g2 : st₁.findArtwork B with
      | none => simp [confirm_match, g1, g2] at h2
      | some aw =>
        cases g3 : st₁.findPhoto det.installation_photo_id with
        | none => simp [confirm_match, g1, g2, g3] at h2
        | some ph =>
          cases g4 : st₁.provenance_records.find? (fun r => r.detection_id == d) with
          | none =>
            exfalso
            have h0 : st₁.provenance_records.countP (fun r => r.detection_id == d) = 0 :=
              List.countP_eq_zero.mpr (List.find?_eq_none.mp g4)
            simp only [provCountFor] at hc1
            omega
          | some r =>
            simp only [confirm_match, g1, g2, g3, g4, Prod.mk.injEq] at h2
            obtain ⟨rfl, -⟩ := h2
            constructor
            · simp only [provCountFor, setArtworkOnFirst_countP]
              simpa [provCountFor] using hc1
            · intro x hx hxd
              have hle : st₁.provenance_records.countP
                  (fun r => r.detection_id == d) ≤ 1 := by
                simp only [provCountFor] at hc1
                omega
              exact setArtworkOnFirst_all st₁.provenance_records d B hle x hx hxd

/-- C2 --- A successful confirm-match reports the detection's pre-call
artwork id as `original_artwork_id`, the requested id as
`confirmed_artwork_id`, and afterwards the detection resolves to the
confirmed artwork (reassigned when it differed, untouched when equal). -/
theorem confirm_match_reports_reassignment (st : Store) (did a : Nat)
    (det : Detection) (st' : Store) (resp : ConfirmMatchResponse)
    (hids : (st.detections.map (fun d => d.id)).Nodup)
    (hdet : st.findDetectionJoinArtwork did = some det)
    (hrun : confirm_match st did a = (st', Except.ok resp)) :
    resp.original_artwork_id = det.artwork_id ∧
    resp.confirmed_artwork_id = a ∧
    st'.findDetectionJoinArtwork did = some { det with artwork_id := a } := by
  cases h2 : st.findArtwork a with
  | none => simp [confirm_match, hdet, h2] at hrun
  | some aw =>
    cases h3 : st.findPhoto det.installation_photo_id with
    | none => simp [confirm_match, hdet, h2, h3] at hrun
    | some ph =>
      have haw_mem := List.mem_of_find?_eq_some h2
      have haw_p := List.find?_some h2
      have hany : st.artworks.any (fun w => w.id == a) = true :=
        List.any_eq_true.mpr ⟨aw, haw_mem, haw_p⟩
      have hafter :
          (if det.artwork_id != a then reassignDetection st.detections did a
           else st.detections).find?
              (fun d => d.id == did && st.artworks.any fun w => w.id == d.artwork_id)
            = some { det with artwork_id := a } := by
        cases hne : (det.artwork_id != a) with
        | true =>
          simp only [if_true]
          exact joinFind_reassign st.detections st.artworks did a det hids hdet hany
        | false =>
          have : det.artwork_id = a := by
            simpa using hne
          simp only [if_false, Bool.false_eq_true]
          rw [← this]
          simpa using hdet
      cases h4 : st.provenance_records.find? (fun r => r.detection_id == did) with
      | some r =>
        simp only [confirm_match, hdet, h2, h3, h4, Prod.mk.injEq] at hrun
        obtain ⟨rfl, hresp⟩ := hrun
        obtain rfl : resp = _ := (Except.ok.inj hresp).symm
        refine ⟨rfl, rfl, ?_⟩
        simpa [Store.findDetectionJoinArtwork] using hafter
      | none =>
        simp only [confirm_match, hdet, h2, h3, h4, Prod.mk.injEq] at hrun
        obtain ⟨rfl, hresp⟩ := hrun
        obtain rfl : resp = _ := (Except.ok.inj hresp).symm
        refine ⟨rfl, rfl, ?_⟩
        simpa [Store.findDetectionJoinArtwork] using hafter

/-- C3 --- A confirm-match call naming a nonexistent detection or a
nonexistent confirmed artwork fails with a not-found error and leaves the
store exactly as it was: no provenance record is created or updated and no
detection is reassigned. -/
theorem confirm_match_rejects_before_mutation (st : Store) (did a : Nat)
    (h : st.findDetectionJoinArtwork did = none ∨ st.findArtwork a = none) :
    (confirm_match st did a).1 = st ∧
    ∃ detail, (confirm_match st did a).2 = Except.error (ApiError.notFound detail) := by
  rcases h with h | h
  · exact ⟨by simp [confirm_match, h], "Detection not found", by simp [confirm_match, h]⟩
  · cases h1 : st.findDetectionJoinArtwork did with
    | none =>
      exact ⟨by simp [confirm_match, h1], "Detection not found",
        by simp [confirm_match, h1]⟩
    | some det =>
      exact ⟨by simp [confirm_match, h1, h], "Confirmed artwork not found",
        by simp [confirm_match, h1, h]⟩

/-- C10 --- When confirm-match finds an existing provenance record for the
detection, the store after the call differs only in that record's
`artwork_id`: its `id`, `detection_id`, `exhibition_id` and `created_at`
are unchanged, every other provenance record is untouched, and the list of
`created_at` timestamps (which orders the provenance aggregator's output)
is identical. -/
theorem confirm_match_update_is_frame_limited (st : Store) (did a : Nat)
    (r : ProvenanceRecord) (st' : Store) (resp : ConfirmMatchResponse)
    (hex : st.provenance_records.find? (fun x => x.detection_id == did) = some r)
    (hrun : confirm_match st did a = (st', Except.ok resp)) :
    ∃ l₁ l₂ r', st.provenance_records = l₁ ++ r :: l₂ ∧
      st'.provenance_records = l₁ ++ r' :: l₂ ∧
      r'.artwork_id = a ∧ r'.id = r.id ∧ r'.detection_id = r.detection_id ∧
      r'.exhibition_id = r.exhibition_id ∧ r'.created_at = r.created_at ∧
      st'.provenance_records.map (fun x => x.created_at)
        = st.provenance_records.map (fun x => x.created_at) := by
  cases h1 : st.findDetectionJoinArtwork did with
  | none => simp [confirm_match, h1] at hrun
  | some det =>
    cases h2 : st.findArtwork a with
    | none => simp [confirm_match, h1, h2] at hrun
    | some aw =>
      cases h3 : st.findPhoto det.installation_photo_id with
      | none => simp [confirm_match, h1, h2, h3] at hrun
      | some ph =>
        simp only [confirm_match, h1, h2, h3, hex, Prod.mk.injEq] at hrun
        obtain ⟨rfl, -⟩ := hrun
        obtain ⟨l₁, l₂, hl, -, hset⟩ :=
          setArtworkOnFirst_decomp st.provenance_records did a r hex
        refine ⟨l₁, l₂, { r with artwork_id := a }, hl, by simpa using hset,
          rfl, rfl, rfl, rfl, rfl, ?_⟩
        rw [hset, hl]
        simp

/-- C4 --- When the vector index is unavailable every operation returns its
failure sentinel instead of raising: upsert and delete return `false`,
search returns the empty list, fetch returns `none`. -/
theorem vector_service_unavailable_sentinels (svc : VectorService)
    (h : svc.is_available = false) :
    (∀ aid emb md, svc.upsert_artwork_embedding aid emb md = false) ∧
    (∀ q k thr, svc.search_similar_artworks q k thr = []) ∧
    (∀ aid, svc.get_artwork_embedding aid = none) ∧
    (∀ aid, svc.delete_artwork_embedding aid = false) := by
  refine ⟨fun aid emb md => ?_, fun q k thr => ?_, fun aid => ?_, fun aid => ?_⟩ <;>
    simp [VectorService.upsert_artwork_embedding,
      VectorService.search_similar_artworks,
      VectorService.get_artwork_embedding,
      VectorService.delete_artwork_embedding, h]

/-- Witness for C4 at the concrete offline service. -/
theorem vector_service_unavailable_sentinels_witness :
    exOfflineService.is_available = false ∧
    ((∀ aid emb md, exOfflineService.upsert_artwork_embedding aid emb md = false) ∧
     (∀ q k thr, exOfflineService.search_similar_artworks q k thr = []) ∧
     (∀ aid, exOfflineService.get_artwork_embedding aid = none) ∧
     (∀ aid, exOfflineService.delete_artwork_embedding aid = false)) :=
  ⟨rfl, vector_service_unavailable_sentinels exOfflineService rfl⟩

/-- The joined artwork of a detection found by the join query exists. -/
lemma findArtwork_of_joinFind (st : Store) (did : Nat) (det : Detection)
    (h : st.findDetectionJoinArtwork did = some det) :
    ∃ aw, st.findArtwork det.artwork_id = some aw := by
  have hp := List.find?_some h
  rw [Bool.and_eq_true] at hp
  obtain ⟨a, ha, hpa⟩ := List.any_eq_true.mp hp.2
  have hsome : (st.artworks.find? fun a => a.id == det.artwork_id).isSome :=
    List.find?_isSome.mpr ⟨a, ha, hpa⟩
  exact Option.isSome_iff_exists.mp hsome

/-- The heuristic score, written as the spec states it: a base of 0.6 plus
a format bonus plus a year-proximity bonus, capped at 0.95. -/
lemma heuristicScore_eq_formula (a d : Artwork) :
    heuristicScore a d =
      min ((6 : ℚ)/10
        + (if a.format_type == d.format_type then (2 : ℚ)/10 else 0)
        + (if intTruthy a.year && intTruthy d.year then
             (if ((a.year.getD 0) - (d.year.getD 0)).natAbs ≤ 5 then (15 : ℚ)/100
              else if ((a.year.getD 0) - (d.year.getD 0)).natAbs ≤ 10 then (1 : ℚ)/10
              else 0)
           else 0)) ((95 : ℚ)/100) := by
  simp only [heuristicScore]
  congr 1
  cases hf : (a.format_type == d.format_type) <;>
    cases hy : (intTruthy a.year && intTruthy d.year) <;>
      simp [hf, hy] <;> split_ifs <;> ring

/-- A candidate with year 1895 and format "painting" scored against a
detected artwork with year 1889 and format "painting": the year gap is 6,
so the bonus is +0.1 and the score is 0.9. -/
lemma heuristicScore_painting_1895_vs_1889 (a d : Artwork)
    (ha1 : a.year = some 1895) (ha2 : a.format_type = some "painting")
    (hd1 : d.year = some 1889) (hd2 : d.format_type = some "painting") :
    heuristicScore a d = (9 : ℚ)/10 := by
  simp only [heuristicScore, ha1, ha2, hd1, hd2, intTruthy]
  norm_num [min_def]

/-- C5 (counterexample) --- The claim's concrete example is wrong on the
code: detected year 1889 versus candidate year 1895 is a gap of 6 years,
which earns the +0.1 bonus (gap at most 10), not +0.15 (gap at most 5), so
the heuristic score is 0.9, not 0.95; the matches endpoint run on a store
holding exactly that pair returns 0.9. -/
theorem heuristic_example_scores_ninety_not_ninetyfive :
    heuristicScore exArtwork2 exArtwork1 = (9 : ℚ)/10 ∧
    heuristicScore exArtwork2 exArtwork1 ≠ (95 : ℚ)/100 ∧
    (get_similarity_matches exOfflineService exStore 1).map
        (fun r => r.similar_artworks.map fun s => s.similarity_score)
      = Except.ok [(9 : ℚ)/10] := by
  have hs : heuristicScore exArtwork2 exArtwork1 = (9 : ℚ)/10 :=
    heuristicScore_painting_1895_vs_1889 _ _ rfl rfl rfl rfl
  refine ⟨hs, by rw [hs]; norm_num, ?_⟩
  have hrun : get_similarity_matches exOfflineService exStore 1
      = Except.ok
          { detection_id := 1
            detected_artwork_id := 1
            detected_artwork_title := "Starry Night"
            confidence_score := 9/10
            similar_artworks := [mkSimilarArtwork exArtwork2 (heuristicScore exArtwork2 exArtwork1)]
            match_count := 1 } := rfl
  rw [hrun]
  simp [Except.map, mkSimilarArtwork, hs]

/-- C5 (amended) --- For a detection that exists, when the vector index is
unavailable `get_matches` returns normally with no vector-sourced
candidates: the returned candidates are exactly the heuristic fallback
candidates, each scored `min (0.6 + format bonus + year bonus) 0.95` (so
never above 0.95), and the spec's 1889-vs-1895 "painting" example scores
exactly 0.9. -/
theorem get_matches_degrades_to_heuristic (svc : VectorService) (st : Store)
    (did : Nat) (det : Detection)
    (hun : svc.is_available = false)
    (hdet : st.findDetectionJoinArtwork did = some det) :
    ∃ detArt resp,
      st.findArtwork det.artwork_id = some detArt ∧
      get_similarity_matches svc st did = Except.ok resp ∧
      resp.similar_artworks =
        (heuristicCandidates st detArt det.artwork_id).map
          (fun a => mkSimilarArtwork a (heuristicScore a detArt)) ∧
      (∀ s ∈ resp.similar_artworks,
        ∃ a ∈ heuristicCandidates st detArt det.artwork_id,
          s = mkSimilarArtwork a (heuristicScore a detArt) ∧
          s.similarity_score =
            min ((6 : ℚ)/10
              + (if a.format_type == detArt.format_type then (2 : ℚ)/10 else 0)
              + (if intTruthy a.year && intTruthy detArt.year then
                   (if ((a.year.getD 0) - (detArt.year.getD 0)).natAbs ≤ 5 then (15 : ℚ)/100
                    else if ((a.year.getD 0) - (detArt.year.getD 0)).natAbs ≤ 10 then (1 : ℚ)/10
                    else 0)
                 else 0)) ((95 : ℚ)/100) ∧
          s.similarity_score ≤ (95 : ℚ)/100) ∧
      (∀ a d : Artwork, a.year = some 1895 → a.format_type = some "painting" →
        d.year = some 1889 → d.format_type = some "painting" →
          heuristicScore a d = (9 : ℚ)/10) := by
  obtain ⟨detArt, hart⟩ := findArtwork_of_joinFind st did det hdet
  refine ⟨detArt,
    { detection_id := did
      detected_artwork_id := det.artwork_id
      detected_artwork_title := detArt.title
      confidence_score := det.confidence_score
      similar_artworks :=
        (heuristicCandidates st detArt det.artwork_id).map
          fun a => mkSimilarArtwork a (heuristicScore a detArt)
      match_count :=
        ((heuristicCandidates st detArt det.artwork_id).map
          fun a => mkSimilarArtwork a (heuristicScore a detArt)).length },
    hart, ?_, rfl, ?_, ?_⟩
  · simp only [get_similarity_matches, hdet, hart, hun, Bool.false_and, if_false,
      Bool.false_eq_true, List.isEmpty_nil, if_true]
  · intro s hs
    obtain ⟨a, ha, rfl⟩ := List.mem_map.mp hs
    refine ⟨a, ha, rfl, ?_, ?_⟩
    · exact heuristicScore_eq_formula a detArt
    · exact min_le_right _ _
  · exact fun a d h1 h2 h3 h4 => heuristicScore_painting_1895_vs_1889 a d h1 h2 h3 h4

/-- Witness for the amended C5 at a concrete store and offline service. -/
theorem get_matches_degrades_to_heuristic_witness :
    exOfflineService.is_available = false ∧
    exStore.findDetectionJoinArtwork 1 = some exDetection ∧
    (∃ detArt resp,
      exStore.findArtwork exDetection.artwork_id = some detArt ∧
      get_similarity_matches exOfflineService exStore 1 = Except.ok resp ∧
      resp.similar_artworks =
        (heuristicCandidates exStore detArt exDetection.artwork_id).map
          (fun a => mkSimilarArtwork a (heuristicScore a detArt)) ∧
      (∀ s ∈ resp.similar_artworks,
        ∃ a ∈ heuristicCandidates exStore detArt exDetection.artwork_id,
          s = mkSimilarArtwork a (heuristicScore a detArt) ∧
          s.similarity_score =
            min ((6 : ℚ)/10
              + (if a.format_type == detArt.format_type then (2 : ℚ)/10 else 0)
              + (if intTruthy a.year && intTruthy detArt.year then
                   (if ((a.year.getD 0) - (detArt.year.getD 0)).natAbs ≤ 5 then (15 : ℚ)/100
                    else if ((a.year.getD 0) - (detArt.year.getD 0)).natAbs ≤ 10 then (1 : ℚ)/10
                    else 0)
                 else 0)) ((95 : ℚ)/100) ∧
          s.similarity_score ≤ (95 : ℚ)/100) ∧
      (∀ a d : Artwork, a.year = some 1895 → a.format_type = some "painting" →
        d.year = some 1889 → d.format_type = some "painting" →
          heuristicScore a d = (9 : ℚ)/10)) :=
  ⟨rfl, rfl, get_matches_degrades_to_heuristic exOfflineService exStore 1 exDetection rfl rfl⟩

lemma randint_mem (s lo hi : Nat) (h : lo ≤ hi) :
    lo ≤ (randint s lo hi).1 ∧ (randint s lo hi).1 ≤ hi := by
  have hm : lcg s % (hi + 1 - lo) < hi + 1 - lo := Nat.mod_lt _ (by omega)
  simp only [randint]
  omega

lemma randUniform_mem (s : Nat) (lo hi : ℚ) (h : lo ≤ hi) :
    lo ≤ (randUniform s lo hi).1 ∧ (randUniform s lo hi).1 ≤ hi := by
  simp only [randUniform]
  have h0 : (0 : ℚ) ≤ ((lcg s % 1000000 : Nat) : ℚ) / 1000000 := by positivity
  have h1 : ((lcg s % 1000000 : Nat) : ℚ) / 1000000 ≤ 1 := by
    rw [div_le_one (by norm_num)]
    have hlt : (lcg s % 1000000) < 1000000 := Nat.mod_lt _ (by norm_num)
    exact_mod_cast hlt.le
  constructor
  · nlinarith
  · nlinarith

lemma randint_idx_lt (s : Nat) (xs : List Artwork) (hne : xs ≠ []) :
    (randint s 0 (xs.length - 1)).1 < xs.length := by
  have hlen : 0 < xs.length := List.length_pos.mpr hne
  have hm : lcg s % (xs.length - 1 + 1 - 0) < xs.length - 1 + 1 - 0 :=
    Nat.mod_lt _ (by omega)
  simp only [randint]
  omega

lemma sample_succ_eq (xs : List Artwork) (k s : Nat) (hne : xs ≠ []) :
    sample xs (k + 1) s =
      (xs.get ⟨(randint s 0 (xs.length - 1)).1, randint_idx_lt s xs hne⟩ ::
        (sample (xs.eraseIdx (randint s 0 (xs.length - 1)).1) k
          (randint s 0 (xs.length - 1)).2).1,
       (sample (xs.eraseIdx (randint s 0 (xs.length - 1)).1) k
          (randint s 0 (xs.length - 1)).2).2) := by
  rw [sample]
  simp [randint_idx_lt s xs hne]

lemma sample_length (xs : List Artwork) (k s : Nat) :
    (sample xs k s).1.length = min k xs.length := by
  induction k generalizing xs s with
  | zero => simp [sample]
  | succ k ih =>
    rcases eq_or_ne xs [] with rfl | hne
    · simp [sample]
    · have hidx := randint_idx_lt s xs hne
      have hlen : 0 < xs.length := List.length_pos.mpr hne
      rw [sample_succ_eq xs k s hne]
      simp only [List.length_cons, ih]
      rw [List.length_eraseIdx]
      simp only [hidx, if_true]
      omega

lemma sample_subset (xs : List Artwork) (k s : Nat) :
    ∀ a ∈ (sample xs k s).1, a ∈ xs := by
  induction k generalizing xs s with
  | zero => simp [sample]
  | succ k ih =>
    rcases eq_or_ne xs [] with rfl | hne
    · simp [sample]
    · rw [sample_succ_eq xs k s hne]
      intro a ha
      rcases List.mem_cons.mp ha with rfl | ha'
      · exact List.get_mem xs _ _
      · exact (List.eraseIdx_sublist xs _).subset (ih _ _ a ha')

lemma map_eraseIdx_comm (f : Artwork → Nat) :
    ∀ (l : List Artwork) (i : Nat), (l.eraseIdx i).map f = (l.map f).eraseIdx i
  | [], _ => by simp
  | _ :: _, 0 => by simp
  | x :: xs, i + 1 => by
    simp only [List.eraseIdx_cons_succ, List.map_cons, map_eraseIdx_comm f xs i]

lemma not_mem_eraseIdx_of_nodup (l : List Nat) (i : Nat) (y : Nat)
    (hnd : l.Nodup) (hy : l[i]? = some y) : y ∉ l.eraseIdx i := by
  induction l generalizing i with
  | nil => simp at hy
  | cons x xs ih =>
    rw [List.nodup_cons] at hnd
    cases i with
    | zero =>
      simp only [List.getElem?_cons_zero] at hy
      obtain rfl : x = y := by injection hy
      simpa [List.eraseIdx] using hnd.1
    | succ i =>
      simp only [List.getElem?_cons_succ] at hy
      simp only [List.eraseIdx_cons_succ, List.mem_cons, not_or]
      constructor
      · intro heq
        obtain ⟨hi, rfl⟩ := List.getElem?_eq_some.mp hy
        exact hnd.1 (heq ▸ List.getElem_mem hi)
      · exact ih i hnd.2 hy

lemma sample_map_nodup (f : Artwork → Nat) (xs : List Artwork) (k s : Nat)
    (h : (xs.map f).Nodup) : ((sample xs k s).1.map f).Nodup := by
  induction k generalizing xs s with
  | zero => simp [sample]
  | succ k ih =>
    rcases eq_or_ne xs [] with rfl | hne
    · simp [sample]
    · have hidx := randint_idx_lt s xs hne
      rw [sample_succ_eq xs k s hne]
      simp only [List.map_cons, List.nodup_cons]
      have herase_nd : ((xs.eraseIdx (randint s 0 (xs.length - 1)).1).map f).Nodup := by
        rw [map_eraseIdx_comm]
        exact (List.eraseIdx_sublist _ _).nodup h
      refine ⟨?_, ih _ _ herase_nd⟩
      intro hmem
      obtain ⟨a, ha, hfa⟩ := List.mem_map.mp hmem
      have ha' : a ∈ xs.eraseIdx (randint s 0 (xs.length - 1)).1 :=
        sample_subset _ _ _ a ha
      have hfy : (xs.map f)[(randint s 0 (xs.length - 1)).1]?
          = some (f (xs.get ⟨(randint s 0 (xs.length - 1)).1, hidx⟩)) := by
        rw [List.getElem?_map, List.getElem?_eq_getElem hidx]
        rfl
      have hnot : f (xs.get ⟨(randint s 0 (xs.length - 1)).1, hidx⟩)
          ∉ (xs.map f).eraseIdx (randint s 0 (xs.length - 1)).1 :=
        not_mem_eraseIdx_of_nodup _ _ _ h hfy
      apply hnot
      rw [← map_eraseIdx_comm]
      exact hfa ▸ List.mem_map_of_mem f ha'

lemma buildDetections_map_artwork_id (arts : List Artwork) (pid nid s : Nat) :
    (buildDetections arts pid nid s).1.map (fun d => d.artwork_id)
      = arts.map (fun a => a.id) := by
  induction arts generalizing nid s with
  | nil => simp [buildDetections]
  | cons a rest ih => simp [buildDetections, ih]

lemma buildDetections_fields (arts : List Artwork) (pid nid s : Nat) :
    ∀ d ∈ (buildDetections arts pid nid s).1,
      d.installation_photo_id = pid ∧
      (3 : ℚ)/4 ≤ d.confidence_score ∧ d.confidence_score ≤ 49/50 ∧
      ∃ bb, d.bounding_box = some bb ∧
        50 ≤ bb.x ∧ bb.x ≤ 400 ∧ 50 ≤ bb.y ∧ bb.y ≤ 300 ∧
        100 ≤ bb.width ∧ bb.width ≤ 300 ∧ 100 ≤ bb.height ∧ bb.height ≤ 400 := by
  induction arts generalizing nid s with
  | nil => simp [buildDetections]
  | cons a rest ih =>
    intro d hd
    simp only [buildDetections] at hd
    rw [List.mem_cons] at hd
    rcases hd with rfl | hd'
    · exact ⟨rfl, (randUniform_mem _ _ _ (by norm_num)).1,
        (randUniform_mem _ _ _ (by norm_num)).2,
        ⟨_, rfl, (randint_mem _ 50 400 (by norm_num)).1,
          (randint_mem _ 50 400 (by norm_num)).2,
          (randint_mem _ 50 300 (by norm_num)).1,
          (randint_mem _ 50 300 (by norm_num)).2,
          (randint_mem _ 100 300 (by norm_num)).1,
          (randint_mem _ 100 300 (by norm_num)).2,
          (randint_mem _ 100 400 (by norm_num)).1,
          (randint_mem _ 100 400 (by norm_num)).2⟩⟩
    · exact ih _ _ d hd'

lemma findPhoto_setPhotoStatus (ps : List InstallationPhoto) (pid : Nat)
    (stat : ProcessingStatus) (p : InstallationPhoto)
    (h : ps.find? (fun q => q.id == pid) = some p) :
    (setPhotoStatus ps pid stat).find? (fun q => q.id == pid)
      = some { p with processed_status := stat } := by
  induction ps with
  | nil => simp at h
  | cons q qs ih =>
    cases hq : (q.id == pid) with
    | true =>
      rw [List.find?_cons, hq] at h
      obtain rfl : q = p := by injection h
      simp only [setPhotoStatus, hq, if_true]
      rw [List.find?_cons]
      simp [hq]
    | false =>
      rw [List.find?_cons, hq] at h
      simp only [setPhotoStatus, hq, if_false, Bool.false_eq_true]
      rw [List.find?_cons]
      simp only [hq]
      exact ih h

/-- C6 --- Over the sequence of job states written by one pipeline run
(observable by status polling, in write order): no state other than the
last is terminal (so no transition leaves COMPLETED or FAILED), the
progress percentages are non-decreasing, the sequence starts with the
PENDING entry at progress 0, and on the success path the progress runs
exactly through the checkpoints 0, 10, 50, 80, 100. -/
theorem job_lifecycle_monotone (env : PipelineEnv) (st : Store) (photo_id : Nat) :
    ((jobRun env st photo_id).1.Chain' fun a _ =>
        a.status ≠ ProcessingStatus.completed ∧ a.status ≠ ProcessingStatus.failed) ∧
    ((jobRun env st photo_id).1.Chain' fun a b =>
        a.progress_percentage ≤ b.progress_percentage) ∧
    (jobRun env st photo_id).1.head? = some (initialJobState photo_id env.clock) ∧
    (initialJobState photo_id env.clock).status = ProcessingStatus.pending ∧
    (initialJobState photo_id env.clock).progress_percentage = 0 ∧
    ((jobRun env st photo_id).2.2.status = ProcessingStatus.completed →
      (jobRun env st photo_id).1.map (fun j => j.progress_percentage)
        = [0, 10, 50, 80, 100]) := by
  obtain ⟨fault, pf, seed, clock⟩ := env
  cases fault with
  | none =>
    cases hemp : (st.artworks.take 10).isEmpty with
    | true =>
      simp [jobRun, mock_process, hemp, initialJobState, List.chain'_cons]
    | false =>
      simp [jobRun, mock_process, hemp, initialJobState, List.chain'_cons]
  | some fm =>
    obtain ⟨fp, m⟩ := fm
    cases fp with
    | duringQuery =>
      simp [jobRun, mock_process, initialJobState, List.chain'_cons]
    | duringCommit =>
      cases hemp : (st.artworks.take 10).isEmpty with
      | true =>
        simp [jobRun, mock_process, hemp, initialJobState, List.chain'_cons]
      | false =>
        simp [jobRun, mock_process, hemp, initialJobState, List.chain'_cons]

/-- C7 --- On every failing run (an injected exception, or the intrinsic
empty-catalog failure whose message names the missing candidates) the job
ends FAILED with the exception's message as error detail and a recorded
completion timestamp; the owning photo is marked failed when the
best-effort update succeeds, the store is untouched when that update
itself fails, and either way the handler returns the same final job state
--- nothing escapes the background task. -/
theorem pipeline_failure_handling (env : PipelineEnv) (st : Store) (photo_id : Nat)
    (hfail : env.fault ≠ none ∨ (st.artworks.take 10).isEmpty = true) :
    (jobRun env st photo_id).2.2.status = ProcessingStatus.failed ∧
    (jobRun env st photo_id).2.2.error_details =
      some (match env.fault with
        | some (FaultPoint.duringQuery, m) => m
        | some (FaultPoint.duringCommit, m) =>
          if (st.artworks.take 10).isEmpty then
            "No artworks in catalog to match against"
          else m
        | none => "No artworks in catalog to match against") ∧
    (jobRun env st photo_id).2.2.completed_at = some env.clock ∧
    (env.photoUpdateFails = false → ∀ p, st.findPhoto photo_id = some p →
      (jobRun env st photo_id).2.1.findPhoto photo_id
        = some { p with processed_status := ProcessingStatus.failed }) ∧
    (env.photoUpdateFails = true → (jobRun env st photo_id).2.1 = st) ∧
    (jobRun { env with photoUpdateFails := true } st photo_id).2.2
      = (jobRun env st photo_id).2.2 := by
  obtain ⟨fault, pf, seed, clock⟩ := env
  have hcase : fault = none → (st.artworks.take 10).isEmpty = true := by
    intro hf
    rcases hfail with hfault | hemp
    · exact absurd hf hfault
    · exact hemp
  cases fault with
  | none =>
    have hemp := hcase rfl
    refine ⟨?_, ?_, ?_, ?_, ?_, ?_⟩
    · simp [jobRun, mock_process, hemp]
    · simp [jobRun, mock_process, hemp]
    · simp [jobRun, mock_process, hemp]
    · intro hpf p hp
      simp only at hpf
      subst hpf
      simp only [Store.findPhoto] at hp
      simp [jobRun, mock_process, hemp, Store.findPhoto]
      exact findPhoto_setPhotoStatus st.photos photo_id .failed p hp
    · intro hpf
      simp only at hpf
      subst hpf
      simp [jobRun, mock_process, hemp]
    · simp [jobRun, mock_process, hemp]
  | some fm =>
    obtain ⟨fp, m⟩ := fm
    cases fp with
    | duringQuery =>
      refine ⟨?_, ?_, ?_, ?_, ?_, ?_⟩
      · simp [jobRun, mock_process]
      · simp [jobRun, mock_process]
      · simp [jobRun, mock_process]
      · intro hpf p hp
        simp only at hpf
        subst hpf
        simp only [Store.findPhoto] at hp
        simp [jobRun, mock_process, Store.findPhoto]
        exact findPhoto_setPhotoStatus st.photos photo_id .failed p hp
      · intro hpf
        simp only at hpf
        subst hpf
        simp [jobRun, mock_process]
      · simp [jobRun, mock_process]
    | duringCommit =>
      cases hemp : (st.artworks.take 10).isEmpty with
      | true =>
        refine ⟨?_, ?_, ?_, ?_, ?_, ?_⟩
        · simp [jobRun, mock_process, hemp]
        · simp [jobRun, mock_process, hemp]
        · simp [jobRun, mock_process, hemp]
        · intro hpf p hp
          simp only at hpf
          subst hpf
          simp only [Store.findPhoto] at hp
          simp [jobRun, mock_process, hemp, Store.findPhoto]
          exact findPhoto_setPhotoStatus st.photos photo_id .failed p hp
        · intro hpf
          simp only at hpf
          subst hpf
          simp [jobRun, mock_process, hemp]
        · simp [jobRun, mock_process, hemp]
      | false =>
        refine ⟨?_, ?_, ?_, ?_, ?_, ?_⟩
        · simp [jobRun, mock_process, hemp]
        · simp [jobRun, mock_process, hemp]
        · simp [jobRun, mock_process, hemp]
        · intro hpf p hp
          simp only at hpf
          subst hpf
          simp only [Store.findPhoto] at hp
          simp [jobRun, mock_process, hemp, Store.findPhoto]
          exact findPhoto_setPhotoStatus st.photos photo_id .failed p hp
        · intro hpf
          simp only at hpf
          subst hpf
          simp [jobRun, mock_process, hemp]
        · simp [jobRun, mock_process, hemp]

lemma buildDetections_length (arts : List Artwork) (pid nid s : Nat) :
    (buildDetections arts pid nid s).1.length = arts.length := by
  have h := buildDetections_map_artwork_id arts pid nid s
  have := congrArg List.length h
  simpa using this

lemma jobRun_success_store (pf : Bool) (seed clock : Nat) (st : Store)
    (photo_id : Nat) (hne : (st.artworks.take 10).isEmpty = false) :
    (jobRun ⟨none, pf, seed, clock⟩ st photo_id).2.1
      = { st with
          detections := st.detections ++ successDetections st photo_id seed
          next_detection_id :=
            st.next_detection_id + (successDetections st photo_id seed).length
          photos := setPhotoStatus st.photos photo_id .completed } := by
  have h : (jobRun ⟨none, pf, seed, clock⟩ st photo_id).2.1
      = successStore st photo_id seed := by
    simp [jobRun, mock_process, hne]
  rw [h]
  rfl

lemma jobRun_success_job (pf : Bool) (seed clock : Nat) (st : Store)
    (photo_id : Nat) (hne : (st.artworks.take 10).isEmpty = false) :
    (jobRun ⟨none, pf, seed, clock⟩ st photo_id).2.2.status
        = ProcessingStatus.completed ∧
      (jobRun ⟨none, pf, seed, clock⟩ st photo_id).2.2.progress_percentage = 100 := by
  constructor <;> simp [jobRun, mock_process, hne]

lemma successDetections_spec (st : Store) (photo_id seed : Nat)
    (hne : (st.artworks.take 10).isEmpty = false) :
    1 ≤ (successDetections st photo_id seed).length ∧
    (successDetections st photo_id seed).length
        ≤ min 3 (st.artworks.take 10).length ∧
    (∀ d ∈ successDetections st photo_id seed,
      (∃ a ∈ st.artworks.take 10, d.artwork_id = a.id) ∧
      d.installation_photo_id = photo_id ∧
      0 ≤ d.confidence_score ∧ (3 : ℚ)/4 ≤ d.confidence_score ∧
      d.confidence_score ≤ 49/50 ∧ d.confidence_score ≤ 1 ∧
      ∃ bb, d.bounding_box = some bb ∧
        50 ≤ bb.x ∧ bb.x ≤ 400 ∧ 50 ≤ bb.y ∧ bb.y ≤ 300 ∧
        100 ≤ bb.width ∧ bb.width ≤ 300 ∧ 100 ≤ bb.height ∧ bb.height ≤ 400) ∧
    ((st.artworks.map (fun a => a.id)).Nodup →
      ((successDetections st photo_id seed).map (fun d => d.artwork_id)).Nodup) := by
  have hne' : st.artworks.take 10 ≠ [] := by
    intro h
    rw [h] at hne
    simp at hne
  have hlen : 0 < (st.artworks.take 10).length := List.length_pos.mpr hne'
  have h1le : 1 ≤ min 3 (st.artworks.take 10).length := by omega
  have hnum := randint_mem seed 1 (min 3 (st.artworks.take 10).length) h1le
  simp only [successDetections]
  set num := randint seed 1 (min 3 (st.artworks.take 10).length) with hnumd
  set smp := sample (st.artworks.take 10) num.1 num.2 with hsmpd
  have hsl : smp.1.length = min num.1 (st.artworks.take 10).length := by
    rw [hsmpd]
    exact sample_length (st.artworks.take 10) num.1 num.2
  refine ⟨?_, ?_, ?_, ?_⟩
  · rw [buildDetections_length, hsl]
    omega
  · rw [buildDetections_length, hsl]
    omega
  · intro d hd
    have hfields :=
      buildDetections_fields smp.1 photo_id st.next_detection_id smp.2 d hd
    refine ⟨?_, hfields.1, ?_, hfields.2.1, hfields.2.2.1, ?_, hfields.2.2.2⟩
    · have hmem : d.artwork_id ∈
          (buildDetections smp.1 photo_id st.next_detection_id smp.2).1.map
            (fun d => d.artwork_id) :=
        List.mem_map_of_mem _ hd
      rw [buildDetections_map_artwork_id] at hmem
      obtain ⟨a, ha, haid⟩ := List.mem_map.mp hmem
      refine ⟨a, ?_, haid.symm⟩
      have := sample_subset (st.artworks.take 10) num.1 num.2 a
      rw [← hsmpd] at this
      exact this ha
    · have h34 := hfields.2.1
      linarith
    · have h4950 := hfields.2.2.1
      linarith
  · intro hnd
    have htake : ((st.artworks.take 10).map (fun a => a.id)).Nodup := by
      rw [List.map_take]
      exact (List.take_sublist _ _).nodup hnd
    have hnodup := sample_map_nodup (fun a => a.id) (st.artworks.take 10)
      num.1 num.2 htake
    rw [← hsmpd] at hnodup
    rw [buildDetections_map_artwork_id]
    exact hnodup

/-- C8 --- A fault-free run on a nonempty candidate sample creates between
1 and min(3, n) detections chosen without replacement (distinct artworks
when catalog ids are distinct), each referencing a sampled catalog artwork,
with confidence in [0.75, 0.98] (hence in [0, 1]) and an integer bounding
box with x∈[50,400], y∈[50,300], width∈[100,300], height∈[100,400]; the
photo is marked completed and the job completes. -/
theorem pipeline_success_detections (env : PipelineEnv) (st : Store)
    (photo_id : Nat)
    (hok : env.fault = none)
    (hne : (st.artworks.take 10).isEmpty = false) :
    ∃ dets : List Detection,
      (jobRun env st photo_id).2.1.detections = st.detections ++ dets ∧
      1 ≤ dets.length ∧ dets.length ≤ min 3 (st.artworks.take 10).length ∧
      (∀ d ∈ dets,
        (∃ a ∈ st.artworks.take 10, d.artwork_id = a.id) ∧
        d.installation_photo_id = photo_id ∧
        0 ≤ d.confidence_score ∧ (3 : ℚ)/4 ≤ d.confidence_score ∧
        d.confidence_score ≤ 49/50 ∧ d.confidence_score ≤ 1 ∧
        ∃ bb, d.bounding_box = some bb ∧
          50 ≤ bb.x ∧ bb.x ≤ 400 ∧ 50 ≤ bb.y ∧ bb.y ≤ 300 ∧
          100 ≤ bb.width ∧ bb.width ≤ 300 ∧ 100 ≤ bb.height ∧ bb.height ≤ 400) ∧
      ((st.artworks.map (fun a => a.id)).Nodup →
        (dets.map (fun d => d.artwork_id)).Nodup) ∧
      (jobRun env st photo_id).2.2.status = ProcessingStatus.completed ∧
      (jobRun env st photo_id).2.2.progress_percentage = 100 ∧
      (∀ p, st.findPhoto photo_id = some p →
        (jobRun env st photo_id).2.1.findPhoto photo_id
          = some { p with processed_status := ProcessingStatus.completed }) := by
  obtain ⟨fault, pf, seed, clock⟩ := env
  simp only at hok
  subst hok
  obtain ⟨h1, h2, h3, h4⟩ := successDetections_spec st photo_id seed hne
  refine ⟨successDetections st photo_id seed, ?_, h1, h2, h3, h4,
    (jobRun_success_job pf seed clock st photo_id hne).1,
    (jobRun_success_job pf seed clock st photo_id hne).2, ?_⟩
  · rw [jobRun_success_store pf seed clock st photo_id hne]
  · intro p hp
    rw [jobRun_success_store pf seed clock st photo_id hne]
    simp only [Store.findPhoto] at hp ⊢
    exact findPhoto_setPhotoStatus st.photos photo_id .completed p hp

/-- Witness for C6 at a concrete environment and store. -/
theorem job_lifecycle_monotone_witness :
    ((jobRun exEnv exStore 1).1.Chain' fun a _ =>
        a.status ≠ ProcessingStatus.completed ∧ a.status ≠ ProcessingStatus.failed) ∧
    ((jobRun exEnv exStore 1).1.Chain' fun a b =>
        a.progress_percentage ≤ b.progress_percentage) ∧
    (jobRun exEnv exStore 1).1.head? = some (initialJobState 1 exEnv.clock) ∧
    (initialJobState 1 exEnv.clock).status = ProcessingStatus.pending ∧
    (initialJobState 1 exEnv.clock).progress_percentage = 0 ∧
    ((jobRun exEnv exStore 1).2.2.status = ProcessingStatus.completed →
      (jobRun exEnv exStore 1).1.map (fun j => j.progress_percentage)
        = [0, 10, 50, 80, 100]) :=
  job_lifecycle_monotone exEnv exStore 1

/-- Witness for C7: a fault-free run against an empty catalog. -/
theorem pipeline_failure_handling_witness :
    (exEnv.fault ≠ none ∨ (exStoreEmpty.artworks.take 10).isEmpty = true) ∧
    ((jobRun exEnv exStoreEmpty 1).2.2.status = ProcessingStatus.failed ∧
     (jobRun exEnv exStoreEmpty 1).2.2.error_details =
       some (match exEnv.fault with
         | some (FaultPoint.duringQuery, m) => m
         | some (FaultPoint.duringCommit, m) =>
           if (exStoreEmpty.artworks.take 10).isEmpty then
             "No artworks in catalog to match against"
           else m
         | none => "No artworks in catalog to match against") ∧
     (jobRun exEnv exStoreEmpty 1).2.2.completed_at = some exEnv.clock ∧
     (exEnv.photoUpdateFails = false → ∀ p, exStoreEmpty.findPhoto 1 = some p →
       (jobRun exEnv exStoreEmpty 1).2.1.findPhoto 1
         = some { p with processed_status := ProcessingStatus.failed }) ∧
     (exEnv.photoUpdateFails = true →
       (jobRun exEnv exStoreEmpty 1).2.1 = exStoreEmpty) ∧
     (jobRun { exEnv with photoUpdateFails := true } exStoreEmpty 1).2.2
       = (jobRun exEnv exStoreEmpty 1).2.2) :=
  ⟨Or.inr rfl, pipeline_failure_handling exEnv exStoreEmpty 1 (Or.inr rfl)⟩

/-- Witness for C8: a fault-free run against the two-artwork catalog. -/
theorem pipeline_success_detections_witness :
    exEnv.fault = none ∧ (exStore.artworks.take 10).isEmpty = false ∧
    (∃ dets : List Detection,
      (jobRun exEnv exStore 1).2.1.detections = exStore.detections ++ dets ∧
      1 ≤ dets.length ∧ dets.length ≤ min 3 (exStore.artworks.take 10).length ∧
      (∀ d ∈ dets,
        (∃ a ∈ exStore.artworks.take 10, d.artwork_id = a.id) ∧
        d.installation_photo_id = 1 ∧
        0 ≤ d.confidence_score ∧ (3 : ℚ)/4 ≤ d.confidence_score ∧
        d.confidence_score ≤ 49/50 ∧ d.confidence_score ≤ 1 ∧
        ∃ bb, d.bounding_box = some bb ∧
          50 ≤ bb.x ∧ bb.x ≤ 400 ∧ 50 ≤ bb.y ∧ bb.y ≤ 300 ∧
          100 ≤ bb.width ∧ bb.width ≤ 300 ∧ 100 ≤ bb.height ∧ bb.height ≤ 400) ∧
      ((exStore.artworks.map (fun a => a.id)).Nodup →
        (dets.map (fun d => d.artwork_id)).Nodup) ∧
      (jobRun exEnv exStore 1).2.2.status = ProcessingStatus.completed ∧
      (jobRun exEnv exStore 1).2.2.progress_percentage = 100 ∧
      (∀ p, exStore.findPhoto 1 = some p →
        (jobRun exEnv exStore 1).2.1.findPhoto 1
          = some { p with processed_status := ProcessingStatus.completed })) :=
  ⟨rfl, rfl, pipeline_success_detections exEnv exStore 1 rfl rfl⟩

lemma normSq_nonneg (l : List ℚ) : 0 ≤ normSq l := by
  induction l with
  | nil => simp [normSq]
  | cons x xs ih =>
    simp only [normSq]
    nlinarith [mul_self_nonneg x]

lemma normSqR_div (l : List ℚ) (c : ℝ) :
    normSqR (l.map fun q : ℚ => (q : ℝ) / c) = ((normSq l : ℚ) : ℝ) / c ^ 2 := by
  induction l with
  | nil => simp [normSqR, normSq]
  | cons x xs ih =>
    simp only [List.map_cons, normSqR, normSq, ih, Rat.cast_add, Rat.cast_mul]
    ring

lemma normalDraw_ne_zero (seed k : Nat) (h : lcgStream seed k % 2001 ≠ 1000) :
    normalDraw seed k ≠ 0 := by
  simp only [normalDraw]
  intro hc
  rw [div_eq_zero_iff] at hc
  rcases hc with hc | hc
  · rw [sub_eq_zero] at hc
    exact h (by exact_mod_cast hc)
  · norm_num at hc

lemma rawEmbedding_normSq_ne_zero (id n : Nat) (h : normalDraw id 0 ≠ 0) :
    normSq (rawEmbedding id (n + 1)) ≠ 0 := by
  rw [rawEmbedding, List.range_succ_eq_map, List.map_cons]
  simp only [normSq]
  have h1 : 0 < normalDraw id 0 * normalDraw id 0 := mul_self_pos.mpr h
  have h2 : 0 ≤ normSq (((List.range n).map Nat.succ).map (normalDraw id)) :=
    normSq_nonneg _
  intro hc
  nlinarith

/-- C9 --- `generate_mock_embedding` is deterministic (equal ids give the
identical vector), returns a vector of the requested dimension (512 at
every call site), and L2-normalizes it: the squared L2 norm of the result
is exactly 1 whenever the raw seeded draw is nonzero, while a zero-norm
raw draw is returned unnormalized rather than divided by zero. -/
theorem embedding_deterministic_unit_norm (artwork_id dimension : Nat) :
    (∀ id2, artwork_id = id2 →
      generate_mock_embedding artwork_id dimension
        = generate_mock_embedding id2 dimension) ∧
    (generate_mock_embedding artwork_id dimension).length = dimension ∧
    (normSq (rawEmbedding artwork_id dimension) ≠ 0 →
      normSqR (generate_mock_embedding artwork_id dimension) = 1) ∧
    (normSq (rawEmbedding artwork_id dimension) = 0 →
      generate_mock_embedding artwork_id dimension
        = (rawEmbedding artwork_id dimension).map fun q : ℚ => ((q : ℝ))) := by
  refine ⟨?_, ?_, ?_, ?_⟩
  · intro id2 h
    subst h
    rfl
  · simp only [generate_mock_embedding]
    split <;>
      rw [List.length_map, rawEmbedding, List.length_map, List.length_range]
  · intro hs
    have hpos : 0 < normSq (rawEmbedding artwork_id dimension) :=
      lt_of_le_of_ne (normSq_nonneg _) (Ne.symm hs)
    have hcast : (0 : ℝ)
        < ((normSq (rawEmbedding artwork_id dimension) : ℚ) : ℝ) := by
      exact_mod_cast hpos
    have hsqrt : 0
        < Real.sqrt ((normSq (rawEmbedding artwork_id dimension) : ℚ) : ℝ) :=
      Real.sqrt_pos.mpr hcast
    simp only [generate_mock_embedding, if_pos hsqrt]
    rw [normSqR_div, Real.sq_sqrt hcast.le]
    exact div_self (ne_of_gt hcast)
  · intro hs
    have hz : Real.sqrt ((normSq (rawEmbedding artwork_id dimension) : ℚ) : ℝ)
        = 0 := by
      rw [hs]
      simp
    simp only [generate_mock_embedding, hz, lt_irrefl, if_false]

/-- Witness for C9 at artwork id 1 and dimension 512: the raw draw is
nonzero (its first component is not zero), so the returned vector has
squared norm exactly 1. -/
theorem embedding_deterministic_unit_norm_witness :
    normSq (rawEmbedding 1 512) ≠ 0 ∧
    normSqR (generate_mock_embedding 1 512) = 1 :=
  have h : normSq (rawEmbedding 1 512) ≠ 0 :=
    rawEmbedding_normSq_ne_zero 1 511 (normalDraw_ne_zero 1 0 (by decide))
  ⟨h, (embedding_deterministic_unit_norm 1 512).2.2.1 h⟩

/-- Witness for C1 at a concrete store. -/
theorem confirm_match_provenance_upsert_witness :
    provCountFor exStore 1 ≤ 1 ∧
    ((∀ calls : List (Nat × Nat), provCountFor (confirmSeq exStore calls) 1 ≤ 1) ∧
     (∀ A B st₁ r₁ st₂ r₂,
        confirm_match exStore 1 A = (st₁, Except.ok r₁) →
        confirm_match st₁ 1 B = (st₂, Except.ok r₂) →
        provCountFor st₂ 1 = 1 ∧
        ∀ r ∈ st₂.provenance_records, r.detection_id = 1 → r.artwork_id = B)) :=
  ⟨by decide, confirm_match_provenance_upsert exStore 1 (by decide)⟩

/-- Witness for C2 at a concrete store. -/
theorem confirm_match_reports_reassignment_witness :
    ((exStore.detections.map (fun d => d.id)).Nodup ∧
     exStore.findDetectionJoinArtwork 1 = some exDetection ∧
     confirm_match exStore 1 2 = (exStoreAfterConfirm, Except.ok exConfirmResp)) ∧
    (exConfirmResp.original_artwork_id = exDetection.artwork_id ∧
     exConfirmResp.confirmed_artwork_id = 2 ∧
     exStoreAfterConfirm.findDetectionJoinArtwork 1
       = some { exDetection with artwork_id := 2 }) :=
  ⟨⟨by decide, rfl, rfl⟩,
   confirm_match_reports_reassignment exStore 1 2 exDetection exStoreAfterConfirm
     exConfirmResp (by decide) rfl rfl⟩

/-- Witness for C3 at a concrete store (detection id 99 does not exist). -/
theorem confirm_match_rejects_before_mutation_witness :
    (exStore.findDetectionJoinArtwork 99 = none ∨ exStore.findArtwork 2 = none) ∧
    ((confirm_match exStore 99 2).1 = exStore ∧
     ∃ detail, (confirm_match exStore 99 2).2 = Except.error (ApiError.notFound detail)) :=
  ⟨Or.inl rfl,
   confirm_match_rejects_before_mutation exStore 99 2 (Or.inl rfl)⟩

/-- Witness for C10 at a concrete store with a pre-existing record. -/
theorem confirm_match_update_is_frame_limited_witness :
    (exStore2.provenance_records.find? (fun x => x.detection_id == 1) = some exRecord ∧
     confirm_match exStore2 1 2 = (exStore2After, Except.ok exConfirmResp2)) ∧
    (∃ l₁ l₂ r', exStore2.provenance_records = l₁ ++ exRecord :: l₂ ∧
      exStore2After.provenance_records = l₁ ++ r' :: l₂ ∧
      r'.artwork_id = 2 ∧ r'.id = exRecord.id ∧ r'.detection_id = exRecord.detection_id ∧
      r'.exhibition_id = exRecord.exhibition_id ∧ r'.created_at = exRecord.created_at ∧
      exStore2After.provenance_records.map (fun x => x.created_at)
        = exStore2.provenance_records.map (fun x => x.created_at)) :=
  ⟨⟨rfl, rfl⟩,
   confirm_match_update_is_frame_limited exStore2 1 2 exRecord exStore2After
     exConfirmResp2 rfl rfl⟩

end AIProv
